import Mathlib

/-!
Shallow embedding of the authentication / user-management core of the
ML Workflow Platform repository.

Sources embedded here:
* src/shared/auth.py            (JWTManager, PasswordManager, RateLimiter)
* src/shared/session.py         (SessionManager, in-memory tier)
* src/shared/exceptions.py      (error taxonomy)
* src/services/user_management/repository.py    (UserRepository)
* src/services/user_management/service.py       (AuthService, UserService)
* src/services/user_management/email_service.py (EmailVerificationService,
  PasswordResetService)

Modelling conventions:
* Time is an `Int`, measured in minutes since an arbitrary epoch
  (`datetime.utcnow()` becomes an explicit `now : Int` argument).
* bcrypt verification (`password_manager.verify_password`) is an external
  library; it is passed in as an oracle `verify_password : String → String → Bool`.
* Python dicts keyed by strings become association lists
  `List (String × α)`; dict assignment removes any previous binding of the
  key and conses the new one, dict lookup takes the first binding.
* Random token generation (`secrets.token_urlsafe`) is modelled by passing
  the freshly drawn token string as an explicit argument.
* A JWT is modelled as its decoded payload together with a `wellFormed`
  flag standing for "the string parses and its signature verifies".
-/

set_option autoImplicit false

/-- Error taxonomy: the `MLPlatformException` subclasses of
src/shared/exceptions.py that the embedded code raises, plus FastAPI's
`HTTPException` raised by `JWTManager.verify_token`. -/
inductive AppErr where
  | authentication (msg : String)
  | validation (msg : String)
  | notFound (msg : String)
  | httpError (statusCode : Nat) (detail : String)
  deriving Repr, DecidableEq

/-- A row of the `users` table as the repository sees it (models.User with
its role names denormalized, since the embedded code only reads
`role.name` off the relationship). -/
structure UserRec where
  id : String
  username : String
  email : String
  password_hash : String
  first_name : String
  last_name : String
  is_verified : Bool
  is_active : Bool
  roles : List String
  deriving Repr, DecidableEq

/-- Generic association-list lookup: first binding of the key wins,
matching Python dict lookup on our insert discipline. -/
def alookup {α : Type} (l : List (String × α)) (k : String) : Option α :=
  (l.find? (fun p => p.1 == k)).map Prod.snd

@[simp] theorem alookup_nil {α : Type} (k : String) : alookup ([] : List (String × α)) k = none := rfl

@[simp] theorem alookup_cons {α : Type} (p : String × α) (l : List (String × α)) (k : String) :
    alookup (p :: l) k = if (p.1 == k) then some p.2 else alookup l k := by
  by_cases h : (p.1 == k)
  · simp [alookup, List.find?, h]
  · simp only [Bool.not_eq_true] at h
    simp [alookup, List.find?, h]

/-- Lookup after a value-only map (keys preserved). -/
theorem alookup_mapVal {α : Type} (f : String → α → α) (l : List (String × α)) (k : String) :
    alookup (l.map (fun p => (p.1, f p.1 p.2))) k = (alookup l k).map (f k) := by
  induction l with
  | nil => rfl
  | cons p t ih =>
    by_cases h : (p.1 == k)
    · have hk : p.1 = k := by simpa using h
      simp [alookup_cons, h, hk]
    · simp [alookup_cons, h, ih]

/-- Removing one key does not change lookups of other keys. -/
theorem alookup_filter_ne {α : Type} (l : List (String × α)) (k k' : String) (h : k' ≠ k) :
    alookup (l.filter (fun p => !(p.1 == k))) k' = alookup l k' := by
  induction l with
  | nil => rfl
  | cons p t ih =>
    by_cases hp : (p.1 == k)
    · have hk : p.1 = k := by simpa using hp
      have hne : (p.1 == k') = false := by
        simp [hk]
        exact fun hc => h hc.symm
      simp [List.filter, hp, alookup_cons, hne, ih]
    · simp [List.filter, hp, alookup_cons, ih]

/-- Lookup of a removed key is `none`. -/
theorem alookup_filter_self {α : Type} (l : List (String × α)) (k : String) :
    alookup (l.filter (fun p => !(p.1 == k))) k = none := by
  induction l with
  | nil => rfl
  | cons p t ih =>
    by_cases hp : (p.1 == k)
    · simp [List.filter, hp, ih]
    · simp [List.filter, hp, alookup_cons, ih]

namespace UserRepository

/-- UserRepository.get_by_id: `WHERE id = user_id AND is_active == True`. -/
def get_by_id (db : List UserRec) (user_id : String) : Option UserRec :=
  db.find? (fun u => u.id == user_id && u.is_active)

/-- UserRepository.get_by_email: `WHERE email = email AND is_active == True`. -/
def get_by_email (db : List UserRec) (email : String) : Option UserRec :=
  db.find? (fun u => u.email == email && u.is_active)

/-- UserRepository.get_by_username_or_email:
`WHERE (username = identifier OR email = identifier) AND is_active == True`. -/
def get_by_username_or_email (db : List UserRec) (identifier : String) : Option UserRec :=
  db.find? (fun u => (u.username == identifier || u.email == identifier) && u.is_active)

/-- UserRepository.delete: soft delete — looks the user up through the
active-filtered `get_by_id`; missing → `False`, otherwise sets
`is_active := False` and returns `True`. -/
def delete (db : List UserRec) (user_id : String) : Bool × List UserRec :=
  match get_by_id db user_id with
  | none => (false, db)
  | some _ =>
    (true, db.map (fun u => if u.id == user_id then { u with is_active := false } else u))

/-- Case-insensitive substring test over the character list, embedding
SQL `ILIKE '%s%'`. -/
def charsContain (needle : List Char) : List Char → Bool
  | [] => needle.isEmpty
  | c :: t => needle.isPrefixOf (c :: t) || charsContain needle t

/-- Case-insensitive substring search used by `list_users` / `count_users`. -/
def ilike (hay pat : String) : Bool :=
  charsContain pat.toLower.data hay.toLower.data

/-- The optional search filter of `list_users` / `count_users`:
substring match across username, email, first and last name. -/
def matchesSearch (search : Option String) (u : UserRec) : Bool :=
  match search with
  | none => true
  | some s => ilike u.username s || ilike u.email s || ilike u.first_name s || ilike u.last_name s

/-- UserRepository.list_users: active filter, optional search filter,
then `OFFSET skip LIMIT limit`. -/
def list_users (db : List UserRec) (skip limit : Nat) (search : Option String) : List UserRec :=
  ((((db.filter (fun u => u.is_active)).filter (matchesSearch search)).drop skip).take limit)

/-- UserRepository.count_users: same filters, unpaginated count. -/
def count_users (db : List UserRec) (search : Option String) : Nat :=
  ((db.filter (fun u => u.is_active)).filter (matchesSearch search)).length

end UserRepository

/-- RateLimiter of src/shared/auth.py: `_attempts` maps an identifier to a
list of `(timestamp, count)` pairs; defaults `max_attempts = 5`,
`window_minutes = 15`. -/
structure RateLimiter where
  attempts : String → List (Int × Nat)
  max_attempts : Nat := 5
  window_minutes : Int := 15

namespace RateLimiter

/-- RateLimiter.is_rate_limited: drops entries at or before
`now - window_minutes` for this identifier (mutating the map), then
compares the summed counts of the surviving window against the
threshold. -/
def is_rate_limited (rl : RateLimiter) (now : Int) (identifier : String) : Bool × RateLimiter :=
  let window_start := now - rl.window_minutes
  let cleaned := (rl.attempts identifier).filter (fun p => decide (window_start < p.1))
  let rl' : RateLimiter :=
    { rl with attempts := fun i => if i == identifier then cleaned else rl.attempts i }
  (decide (rl.max_attempts ≤ (cleaned.map Prod.snd).sum), rl')

/-- RateLimiter.record_attempt: only failed attempts are appended; a
successful attempt leaves every lookup unchanged (the source only
materializes an empty list for the key). -/
def record_attempt (rl : RateLimiter) (now : Int) (identifier : String) (failed : Bool) :
    RateLimiter :=
  if failed then
    { rl with
      attempts := fun i =>
        if i == identifier then rl.attempts identifier ++ [(now, 1)] else rl.attempts i }
  else rl

end RateLimiter

namespace AuthService

/-- AuthService.authenticate_user of
src/services/user_management/service.py, lines 51–74.  The bcrypt check
is the oracle `verify_password`; `client_ip or login_data.username`
becomes `client_ip.getD username`.  Returns the outcome together with
the rate-limiter state left behind. -/
def authenticate_user (verify_password : String → String → Bool) (db : List UserRec)
    (rl : RateLimiter) (now : Int) (username password : String) (client_ip : Option String) :
    Except AppErr UserRec × RateLimiter :=
  let identifier := client_ip.getD username
  let res := rl.is_rate_limited now identifier
  let rl1 := res.2
  if res.1 then
    (.error (.authentication "Too many failed attempts. Please try again later."), rl1)
  else
    match UserRepository.get_by_username_or_email db username with
    | none =>
      (.error (.authentication "Invalid credentials"), rl1.record_attempt now identifier true)
    | some user =>
      if !(verify_password password user.password_hash) then
        (.error (.authentication "Invalid credentials"), rl1.record_attempt now identifier true)
      else if !user.is_active then
        (.error (.authentication "Account is deactivated"), rl1.record_attempt now identifier true)
      else
        (.ok user, rl1.record_attempt now identifier false)

end AuthService

/-- The decoded claims map of a JWT, with the keys the embedded code reads
(`jti` is random and read by nothing, so it is omitted). A claim that the
Python payload lacks is `none`. -/
structure Claims where
  sub : Option String := none
  username : Option String := none
  email : Option String := none
  roles : List String := []
  session_id : Option String := none
  exp : Option Int := none
  type_ : Option String := none
  deriving Repr, DecidableEq

/-- A bearer-token string as the verifier sees it: `wellFormed` stands for
"the compact string parses and its signature verifies under the configured
secret and algorithm"; `payload` is the claims map it would decode to. -/
structure Token where
  wellFormed : Bool
  payload : Claims
  deriving Repr, DecidableEq

namespace JWTManager

/-- Configured access-token lifetime (jwt_access_token_expire_minutes,
default 30), in minutes. -/
def accessTokenExpireMinutes : Int := 30

/-- Configured refresh-token lifetime (jwt_refresh_token_expire_days,
default 7), in minutes. -/
def refreshTokenExpireMinutes : Int := 7 * 24 * 60

/-- The `jose.jwt.decode` call: rejects a malformed or badly signed
token, and rejects a token whose `exp` claim is in the past
(`ExpiredSignatureError`, message "Signature has expired.").  Both are
`JWTError`s, modelled by the error message. -/
def jose_decode (now : Int) (t : Token) : Except String Claims :=
  if !t.wellFormed then .error "Signature verification failed."
  else
    match t.payload.exp with
    | some e => if e < now then .error "Signature has expired." else .ok t.payload
    | none => .ok t.payload

/-- The body of JWTManager.verify_token before its exception handler:
decode, then the type-claim check, then the redundant expiry check; a
failure is the `JWTError` message that the handler logs. -/
def verify_token_core (now : Int) (t : Token) (token_type : String) : Except String Claims :=
  match jose_decode now t with
  | .error e => .error e
  | .ok payload =>
    if payload.type_ != some token_type then
      .error ("Invalid token type. Expected " ++ token_type)
    else
      match payload.exp with
      | some e => if e < now then .error "Token has expired" else .ok payload
      | none => .ok payload

/-- JWTManager.verify_token: any `JWTError` from the body is logged and
re-raised as one fixed `HTTPException(401, "Could not validate
credentials")`. -/
def verify_token (now : Int) (t : Token) (token_type : String) : Except AppErr Claims :=
  match verify_token_core now t token_type with
  | .ok payload => .ok payload
  | .error _ => .error (.httpError 401 "Could not validate credentials")

/-- The `token_data` dict both token creators receive in AuthService. -/
structure TokenData where
  sub : String
  username : String
  email : String
  roles : List String
  session_id : Option String := none
  deriving Repr, DecidableEq

/-- JWTManager.create_access_token: payload plus `exp` and `type`. -/
def create_access_token (now : Int) (d : TokenData) : Claims :=
  { sub := some d.sub, username := some d.username, email := some d.email,
    roles := d.roles, session_id := d.session_id,
    exp := some (now + accessTokenExpireMinutes), type_ := some "access" }

/-- JWTManager.create_refresh_token: payload plus `exp` and `type`. -/
def create_refresh_token (now : Int) (d : TokenData) : Claims :=
  { sub := some d.sub, username := some d.username, email := some d.email,
    roles := d.roles, session_id := d.session_id,
    exp := some (now + refreshTokenExpireMinutes), type_ := some "refresh" }

end JWTManager

/-- One session record of SessionManager (`user_data` is opaque to every
claim proved here, so only the fields the embedded code branches on are
kept). -/
structure SessionData where
  user_id : String
  created_at : Int
  last_accessed : Int
  deriving Repr, DecidableEq

namespace SessionManager

/-- The in-process fallback `_memory_sessions` dict of
src/shared/session.py, as used when the durable client is absent
(`self.redis_client is None`). -/
def get_session (now : Int) (st : List (String × SessionData)) (session_id : String) :
    Option SessionData × List (String × SessionData) :=
  match alookup st session_id with
  | none => (none, st)
  | some d =>
    let d' := { d with last_accessed := now }
    (some d', st.map (fun p => (p.1, if p.1 == session_id then d' else p.2)))

/-- SessionManager.delete_session, memory tier: `True` iff the key was
present, removing it. -/
def delete_session (st : List (String × SessionData)) (session_id : String) :
    Bool × List (String × SessionData) :=
  if (alookup st session_id).isSome then
    (true, st.filter (fun p => !(p.1 == session_id)))
  else (false, st)

/-- SessionManager.cleanup_expired_sessions, memory tier: drops every
session whose age since `created_at` exceeds the refresh-token lifetime. -/
def cleanup_expired_sessions (now : Int) (st : List (String × SessionData)) :
    List (String × SessionData) :=
  st.filter (fun p => !(decide (JWTManager.refreshTokenExpireMinutes < now - p.2.created_at)))

/-- Transcribed from the spec's stated SessionStore contract (spec.md
§4.4), for comparison with the source's fallback tier: `get` returns the
session only while its TTL since last access has not elapsed, refreshing
`last_accessed` and re-applying the TTL (sliding expiration); an
elapsed session is not returned and is dropped, as the primary durable
expiring key-value tier behaves. -/
def spec_sliding_get (now ttl : Int) (st : List (String × SessionData)) (session_id : String) :
    Option SessionData × List (String × SessionData) :=
  match alookup st session_id with
  | none => (none, st)
  | some d =>
    if ttl < now - d.last_accessed then
      (none, st.filter (fun p => !(p.1 == session_id)))
    else
      let d' := { d with last_accessed := now }
      (some d', st.map (fun p => (p.1, if p.1 == session_id then d' else p.2)))

end SessionManager

/-- One entry of the class-level verification / reset token dicts of
src/services/user_management/email_service.py. -/
structure VTokenData where
  user_id : String
  email : String
  expiry : Int
  used : Bool
  deriving Repr, DecidableEq

namespace EmailVerificationService

/-- Verification-token lifetime: `timedelta(hours=24)`, in minutes. -/
def verificationTokenTTL : Int := 24 * 60

/-- EmailVerificationService.generate_verification_token: stores the
freshly drawn token (dict assignment replaces any previous binding of the
same key) with a 24-hour expiry and `used = False`. -/
def generate_verification_token (now : Int) (m : List (String × VTokenData))
    (token user_id email : String) : List (String × VTokenData) :=
  (token, { user_id := user_id, email := email,
            expiry := now + verificationTokenTTL, used := false }) ::
    m.filter (fun p => !(p.1 == token))

/-- EmailVerificationService.verify_token: `None` when missing, used, or
past expiry; otherwise the stored data. -/
def verify_token (now : Int) (m : List (String × VTokenData)) (token : String) :
    Option VTokenData :=
  match alookup m token with
  | none => none
  | some d => if d.used then none else if d.expiry < now then none else some d

/-- EmailVerificationService.mark_token_used. -/
def mark_token_used (m : List (String × VTokenData)) (token : String) :
    Bool × List (String × VTokenData) :=
  if (alookup m token).isSome then
    (true, m.map (fun p => (p.1, if p.1 == token then { p.2 with used := true } else p.2)))
  else (false, m)

/-- EmailVerificationService.resend_verification_email: marks used every
non-used token of this user, then generates (and "sends") a fresh one. -/
def resend_verification_email (now : Int) (m : List (String × VTokenData))
    (newToken user_id email : String) : List (String × VTokenData) :=
  let m1 := m.map (fun p =>
    (p.1, if p.2.user_id == user_id && !p.2.used then { p.2 with used := true } else p.2))
  generate_verification_token now m1 newToken user_id email

end EmailVerificationService

namespace PasswordResetService

/-- Reset-token lifetime: `timedelta(hours=1)`, in minutes. -/
def resetTokenTTL : Int := 60

/-- PasswordResetService.generate_reset_token: stores the freshly drawn
token with a 1-hour expiry and `used = False`.  Unlike
`resend_verification_email`, it does not touch any prior token of the
user. -/
def generate_reset_token (now : Int) (m : List (String × VTokenData))
    (token user_id email : String) : List (String × VTokenData) :=
  (token, { user_id := user_id, email := email,
            expiry := now + resetTokenTTL, used := false }) ::
    m.filter (fun p => !(p.1 == token))

/-- PasswordResetService.verify_reset_token: `None` when missing, used,
or past expiry. -/
def verify_reset_token (now : Int) (m : List (String × VTokenData)) (token : String) :
    Option VTokenData :=
  match alookup m token with
  | none => none
  | some d => if d.used then none else if d.expiry < now then none else some d

/-- PasswordResetService.mark_reset_token_used. -/
def mark_reset_token_used (m : List (String × VTokenData)) (token : String) :
    Bool × List (String × VTokenData) :=
  if (alookup m token).isSome then
    (true, m.map (fun p => (p.1, if p.1 == token then { p.2 with used := true } else p.2)))
  else (false, m)

end PasswordResetService

namespace AuthService

/-- AuthService.refresh_token of
src/services/user_management/service.py, lines 113–156: verify as
refresh kind, require `sub`, check the session when a `session_id` claim
is present, require an existing active user (deleting the session
otherwise), and mint a fresh access+refresh pair from the rebuilt
`token_data`.  Returns the outcome with the session store left behind. -/
def refresh_token (now : Int) (db : List UserRec) (st : List (String × SessionData))
    (t : Token) : Except AppErr (Claims × Claims) × List (String × SessionData) :=
  match JWTManager.verify_token now t "refresh" with
  | .error e => (.error e, st)
  | .ok payload =>
    match payload.sub with
    | none => (.error (.authentication "Invalid token payload"), st)
    | some user_id =>
      match payload.session_id with
      | some session_id =>
        let res := SessionManager.get_session now st session_id
        if (res.1).isNone then
          (.error (.authentication "Session expired"), res.2)
        else
          match UserRepository.get_by_id db user_id with
          | none =>
            (.error (.authentication "User not found or inactive"),
             (SessionManager.delete_session res.2 session_id).2)
          | some user =>
            if !user.is_active then
              (.error (.authentication "User not found or inactive"),
               (SessionManager.delete_session res.2 session_id).2)
            else
              let td : JWTManager.TokenData :=
                { sub := user.id, username := user.username, email := user.email,
                  roles := user.roles, session_id := some session_id }
              (.ok (JWTManager.create_access_token now td,
                    JWTManager.create_refresh_token now td), res.2)
      | none =>
        match UserRepository.get_by_id db user_id with
        | none => (.error (.authentication "User not found or inactive"), st)
        | some user =>
          if !user.is_active then
            (.error (.authentication "User not found or inactive"), st)
          else
            let td : JWTManager.TokenData :=
              { sub := user.id, username := user.username, email := user.email,
                roles := user.roles, session_id := none }
            (.ok (JWTManager.create_access_token now td,
                  JWTManager.create_refresh_token now td), st)

/-- AuthService.logout, lines 158–172: the whole body sits in a
`try/except Exception: return False`, so the `HTTPException` of a failed
token verification is swallowed into `False`; on a verified token the
session, if referenced, is deleted and the deletion result returned. -/
def logout (now : Int) (st : List (String × SessionData)) (t : Token) :
    Bool × List (String × SessionData) :=
  match JWTManager.verify_token now t "access" with
  | .error _ => (false, st)
  | .ok payload =>
    match payload.session_id with
    | some session_id => SessionManager.delete_session st session_id
    | none => (true, st)

end AuthService

namespace UserService

/-- UserService.request_password_reset, lines 310–332: always `True`; a
reset token is generated (with the freshly drawn `freshToken`) only when
the active-filtered email lookup finds a user. -/
def request_password_reset (now : Int) (db : List UserRec)
    (m : List (String × VTokenData)) (email freshToken : String) :
    Bool × List (String × VTokenData) :=
  match UserRepository.get_by_email db email with
  | none => (true, m)
  | some u => (true, PasswordResetService.generate_reset_token now m freshToken u.id u.email)

/-- UserService.verify_email, lines 244–281: invalid/expired token →
`ValidationError`; vanished user → `NotFoundError`; already-verified
user → success returning the user, leaving both the user table and the
token store untouched; otherwise flips `is_verified` and marks the token
used.  Returns the outcome with the user table and token store left
behind. -/
def verify_email (now : Int) (db : List UserRec) (m : List (String × VTokenData))
    (token : String) : Except AppErr UserRec × List UserRec × List (String × VTokenData) :=
  match EmailVerificationService.verify_token now m token with
  | none => (.error (.validation "Invalid or expired verification token"), db, m)
  | some token_data =>
    match UserRepository.get_by_id db token_data.user_id with
    | none =>
      (.error (.notFound ("User with ID " ++ token_data.user_id ++ " not found")), db, m)
    | some user =>
      if user.is_verified then
        (.ok user, db, m)
      else
        let db' := db.map (fun u => if u.id == user.id then { u with is_verified := true } else u)
        (.ok { user with is_verified := true }, db',
         (EmailVerificationService.mark_token_used m token).2)

end UserService

/-! ## Claim theorems -/

/-- C6: `request_password_reset` returns `true` for every email; the
observable return value is identical whether or not a user with that
email exists (any two user tables give the same result), and a reset
token is issued — the token store changes — only in the run where the
user exists. -/
theorem request_password_reset_always_true (now : Int) (db db' : List UserRec)
    (m : List (String × VTokenData)) (email freshToken : String) :
    (UserService.request_password_reset now db m email freshToken).1 = true ∧
    ((UserService.request_password_reset now db m email freshToken).1 =
      (UserService.request_password_reset now db' m email freshToken).1) ∧
    (UserRepository.get_by_email db email = none →
      (UserService.request_password_reset now db m email freshToken).2 = m) ∧
    (∀ u, UserRepository.get_by_email db email = some u →
      (UserService.request_password_reset now db m email freshToken).2 =
        PasswordResetService.generate_reset_token now m freshToken u.id u.email) := by
  refine ⟨?_, ?_, ?_, ?_⟩
  · cases h : UserRepository.get_by_email db email <;>
      simp [UserService.request_password_reset, h]
  · cases h : UserRepository.get_by_email db email <;>
      cases h' : UserRepository.get_by_email db' email <;>
      simp [UserService.request_password_reset, h, h']
  · intro h; simp [UserService.request_password_reset, h]
  · intro u h; simp [UserService.request_password_reset, h]

/-- Witness for C6 at a concrete input: empty user table, so the call
reports `true` and leaves the token store untouched. -/
theorem request_password_reset_always_true_witness :
    (UserService.request_password_reset 0 [] [] "alice@example.com" "tok1").1 = true ∧
    (UserService.request_password_reset 0 [] [] "alice@example.com" "tok1").2 = [] :=
  ⟨(request_password_reset_always_true 0 [] [] [] "alice@example.com" "tok1").1,
   (request_password_reset_always_true 0 [] [] [] "alice@example.com" "tok1").2.2.1 rfl⟩

/-- C4 (counterexample): an expired, correctly typed token and a wrongly
typed token fail `JWTManager.verify_token` with the very same error
value — `HTTPException(401, "Could not validate credentials")` — so
verification does not raise a distinct TokenExpired-kind error. -/
theorem verify_token_same_error_counterexample :
    JWTManager.verify_token 100 ⟨true, { type_ := some "access", exp := some 10 }⟩ "access" =
      .error (.httpError 401 "Could not validate credentials") ∧
    JWTManager.verify_token 100 ⟨true, { type_ := some "refresh", exp := some 1000 }⟩ "access" =
      .error (.httpError 401 "Could not validate credentials") ∧
    JWTManager.verify_token 100 ⟨true, { type_ := some "access", exp := some 10 }⟩ "access" =
      JWTManager.verify_token 100 ⟨true, { type_ := some "refresh", exp := some 1000 }⟩ "access" :=
  ⟨rfl, rfl, rfl⟩

/-- C4 (amended): every verification failure is re-raised as the one
fixed `HTTPException(401, "Could not validate credentials")`; the
expired / invalid distinction exists only in the internal `JWTError`
message that is logged — a wrong `type` claim on an unexpired
well-formed token produces "Invalid token type. Expected kind", while a
correctly or wrongly typed well-formed token past its `exp` produces the
signing library's "Signature has expired.". -/
theorem verify_token_uniform_401 (now : Int) (t : Token) (kind : String) :
    (∀ msg, JWTManager.verify_token_core now t kind = .error msg →
      JWTManager.verify_token now t kind =
        .error (.httpError 401 "Could not validate credentials")) ∧
    (t.wellFormed = true → t.payload.type_ ≠ some kind →
      (∀ e, t.payload.exp = some e → ¬ e < now) →
      JWTManager.verify_token_core now t kind =
        .error ("Invalid token type. Expected " ++ kind)) ∧
    (t.wellFormed = true → ∀ e, t.payload.exp = some e → e < now →
      JWTManager.verify_token_core now t kind = .error "Signature has expired.") := by
  refine ⟨?_, ?_, ?_⟩
  · intro msg h
    simp [JWTManager.verify_token, h]
  · intro hw hty hexp
    cases hx : t.payload.exp with
    | none =>
      simp [JWTManager.verify_token_core, JWTManager.jose_decode, hw, hx, hty]
    | some e =>
      have he : ¬ e < now := hexp e hx
      simp [JWTManager.verify_token_core, JWTManager.jose_decode, hw, hx, he, hty]
  · intro hw e hx he
    simp [JWTManager.verify_token_core, JWTManager.jose_decode, hw, hx, he]

/-- Witness for C4's amended theorem at concrete tokens: the uniform
401 on a failure and both internal messages. -/
theorem verify_token_uniform_401_witness :
    JWTManager.verify_token 100 ⟨true, { type_ := some "refresh", exp := some 1000 }⟩ "access" =
      .error (.httpError 401 "Could not validate credentials") ∧
    JWTManager.verify_token_core 100 ⟨true, { type_ := some "refresh", exp := some 1000 }⟩
      "access" = .error ("Invalid token type. Expected " ++ "access") ∧
    JWTManager.verify_token_core 100 ⟨true, { type_ := some "access", exp := some 10 }⟩
      "access" = .error "Signature has expired." := by
  refine ⟨?_, ?_, ?_⟩
  · exact (verify_token_uniform_401 100 ⟨true, { type_ := some "refresh", exp := some 1000 }⟩
      "access").1 ("Invalid token type. Expected " ++ "access") rfl
  · exact (verify_token_uniform_401 100 ⟨true, { type_ := some "refresh", exp := some 1000 }⟩
      "access").2.1 rfl (by decide) (by intro e he; injection he with h; rw [← h]; decide)
  · exact (verify_token_uniform_401 100 ⟨true, { type_ := some "access", exp := some 10 }⟩
      "access").2.2 rfl 10 rfl (by decide)

/-- C5 (counterexample): a logout presented with a merely-invalid token
(signature does not verify) returns `false` even though no internal
exception occurred — the swallowed verification failure itself yields
the `false` return. -/
theorem logout_false_on_invalid_token_counterexample :
    AuthService.logout 0 [] ⟨false, {}⟩ = (false, []) := rfl

/-- C5 (amended): logout never propagates a token-verification failure,
but it does return `false` whenever verification fails (the swallowed
`HTTPException` path); when verification succeeds it returns the result
of deleting the referenced session if a `session_id` claim is present —
so also `false` when that session no longer exists — and `true` when no
`session_id` claim is present. -/
theorem logout_best_effort_characterization (now : Int)
    (st : List (String × SessionData)) (t : Token) :
    (∀ e, JWTManager.verify_token now t "access" = .error e →
      AuthService.logout now st t = (false, st)) ∧
    (∀ payload sid, JWTManager.verify_token now t "access" = .ok payload →
      payload.session_id = some sid →
      AuthService.logout now st t = SessionManager.delete_session st sid) ∧
    (∀ payload, JWTManager.verify_token now t "access" = .ok payload →
      payload.session_id = none →
      AuthService.logout now st t = (true, st)) := by
  refine ⟨?_, ?_, ?_⟩
  · intro e h; simp [AuthService.logout, h]
  · intro payload sid h hsid; simp [AuthService.logout, h, hsid]
  · intro payload h hsid; simp [AuthService.logout, h, hsid]

/-- Witness for C5's amended theorem: a failing verification yields
`(false, store)`, and a verified token whose session exists deletes it. -/
theorem logout_best_effort_characterization_witness :
    AuthService.logout 0 [("s1", ⟨"u1", 0, 0⟩)] ⟨false, {}⟩ = (false, [("s1", ⟨"u1", 0, 0⟩)]) ∧
    AuthService.logout 0 [("s1", ⟨"u1", 0, 0⟩)]
      ⟨true, { session_id := some "s1", exp := some 100, type_ := some "access" }⟩ =
      SessionManager.delete_session [("s1", ⟨"u1", 0, 0⟩)] "s1" :=
  ⟨(logout_best_effort_characterization 0 [("s1", ⟨"u1", 0, 0⟩)] ⟨false, {}⟩).1
      (.httpError 401 "Could not validate credentials") rfl,
   (logout_best_effort_characterization 0 [("s1", ⟨"u1", 0, 0⟩)]
      ⟨true, { session_id := some "s1", exp := some 100, type_ := some "access" }⟩).2.1
      { session_id := some "s1", exp := some 100, type_ := some "access" } "s1" rfl rfl⟩

/-- C1: whenever the failed-attempt weights recorded inside the sliding
window for the effective identifier sum to at least the threshold, a
subsequent `authenticate_user` call fails with the rate-limit
`AuthenticationError` — uniformly in the user table and in the password
oracle, so no user lookup or password comparison can influence the
outcome; and once every recorded attempt has aged out of the window, a
call with valid credentials succeeds again. -/
theorem authenticate_rate_limit_gate (rl : RateLimiter) (now : Int)
    (username password : String) (client_ip : Option String) :
    (rl.max_attempts ≤
        ((((rl.attempts (client_ip.getD username)).filter
            (fun p => decide (now - rl.window_minutes < p.1))).map Prod.snd).sum) →
      ∀ (verify_password : String → String → Bool) (db : List UserRec),
        (AuthService.authenticate_user verify_password db rl now username password client_ip).1 =
          .error (.authentication "Too many failed attempts. Please try again later.")) ∧
    (0 < rl.max_attempts →
      (∀ p ∈ rl.attempts (client_ip.getD username), p.1 ≤ now - rl.window_minutes) →
      ∀ (verify_password : String → String → Bool) (db : List UserRec) (u : UserRec),
        UserRepository.get_by_username_or_email db username = some u →
        verify_password password u.password_hash = true →
        (AuthService.authenticate_user verify_password db rl now username password client_ip).1 =
          .ok u) := by
  constructor
  · intro hsum verify_password db
    have hb : (rl.is_rate_limited now (client_ip.getD username)).1 = true := by
      simpa [RateLimiter.is_rate_limited] using hsum
    simp [AuthService.authenticate_user, hb]
  · intro hpos hold verify_password db u hu hverify
    have hfil : (rl.attempts (client_ip.getD username)).filter
        (fun p => decide (now - rl.window_minutes < p.1)) = [] := by
      refine List.filter_eq_nil_iff.mpr ?_
      intro p hp
      simpa using not_lt.mpr (hold p hp)
    have hb : (rl.is_rate_limited now (client_ip.getD username)).1 = false := by
      simp [RateLimiter.is_rate_limited, hfil]
      omega
    have hact : u.is_active = true := by
      have hp := List.find?_some (by simpa [UserRepository.get_by_username_or_email] using hu)
      simp at hp
      exact hp.2
    simp [AuthService.authenticate_user, hb, hu, hverify, hact]

/-- Witness for C1 at concrete inputs: five failed attempts at times
0..4 rate-limit the sixth call at time 5 (threshold 5, window 15), and
at time 100 — the window long elapsed — the same limiter state lets a
valid login through. -/
theorem authenticate_rate_limit_gate_witness :
    (AuthService.authenticate_user (fun p h => p == h)
        [⟨"u1", "alice", "alice@example.com", "pw", "", "", true, true, []⟩]
        { attempts := fun i => if i == "1.2.3.4" then [(0, 1), (1, 1), (2, 1), (3, 1), (4, 1)] else [] }
        5 "alice" "pw" (some "1.2.3.4")).1 =
      .error (.authentication "Too many failed attempts. Please try again later.") ∧
    (AuthService.authenticate_user (fun p h => p == h)
        [⟨"u1", "alice", "alice@example.com", "pw", "", "", true, true, []⟩]
        { attempts := fun i => if i == "1.2.3.4" then [(0, 1), (1, 1), (2, 1), (3, 1), (4, 1)] else [] }
        100 "alice" "pw" (some "1.2.3.4")).1 =
      .ok ⟨"u1", "alice", "alice@example.com", "pw", "", "", true, true, []⟩ :=
  ⟨(authenticate_rate_limit_gate
      { attempts := fun i => if i == "1.2.3.4" then [(0, 1), (1, 1), (2, 1), (3, 1), (4, 1)] else [] }
      5 "alice" "pw" (some "1.2.3.4")).1 (by decide) (fun p h => p == h)
      [⟨"u1", "alice", "alice@example.com", "pw", "", "", true, true, []⟩],
   (authenticate_rate_limit_gate
      { attempts := fun i => if i == "1.2.3.4" then [(0, 1), (1, 1), (2, 1), (3, 1), (4, 1)] else [] }
      100 "alice" "pw" (some "1.2.3.4")).2 (by decide) (by decide) (fun p h => p == h)
      [⟨"u1", "alice", "alice@example.com", "pw", "", "", true, true, []⟩]
      ⟨"u1", "alice", "alice@example.com", "pw", "", "", true, true, []⟩ (by decide) (by decide)⟩

/-- C9: the "Account is deactivated" branch of `authenticate_user` is
unreachable — no input whatsoever produces that error, because the
repository lookup filters on `is_active == True`; and when the only
users matching the identifier are inactive (and the caller is not rate
limited), authentication fails with the very same "Invalid credentials"
error as for a non-existent user. -/
theorem deactivated_branch_unreachable :
    (∀ (verify_password : String → String → Bool) (db : List UserRec) (rl : RateLimiter)
        (now : Int) (username password : String) (client_ip : Option String),
      (AuthService.authenticate_user verify_password db rl now username password client_ip).1 ≠
        .error (.authentication "Account is deactivated")) ∧
    (∀ (verify_password : String → String → Bool) (db : List UserRec) (rl : RateLimiter)
        (now : Int) (username password : String) (client_ip : Option String),
      (rl.is_rate_limited now (client_ip.getD username)).1 = false →
      (∀ u ∈ db, (u.username == username || u.email == username) = true → u.is_active = false) →
      (AuthService.authenticate_user verify_password db rl now username password client_ip).1 =
        .error (.authentication "Invalid credentials")) := by
  constructor
  · intro verify_password db rl now username password client_ip
    cases hb : (rl.is_rate_limited now (client_ip.getD username)).1 with
    | true => simp [AuthService.authenticate_user, hb]
    | false =>
      cases hf : UserRepository.get_by_username_or_email db username with
      | none => simp [AuthService.authenticate_user, hb, hf]
      | some u =>
        have hact : u.is_active = true := by
          have hp := List.find?_some
            (by simpa [UserRepository.get_by_username_or_email] using hf)
          simp at hp
          exact hp.2
        cases hv : verify_password password u.password_hash with
        | false => simp [AuthService.authenticate_user, hb, hf, hv]
        | true => simp [AuthService.authenticate_user, hb, hf, hv, hact]
  · intro verify_password db rl now username password client_ip hb hall
    have hf : UserRepository.get_by_username_or_email db username = none := by
      refine List.find?_eq_none.mpr ?_
      intro u hu
      by_cases hm : (u.username == username || u.email == username) = true
      · simp [hm, hall u hu hm]
      · simp only [Bool.not_eq_true] at hm
        simp [hm]
    simp [AuthService.authenticate_user, hb, hf]

/-- Witness for C9 at a concrete input: a user table whose only match
for "bob" is an inactive account yields "Invalid credentials", not
"Account is deactivated". -/
theorem deactivated_branch_unreachable_witness :
    (AuthService.authenticate_user (fun p h => p == h)
        [⟨"u2", "bob", "bob@example.com", "pw", "", "", true, false, []⟩]
        { attempts := fun _ => [] } 0 "bob" "pw" none).1 =
      .error (.authentication "Invalid credentials") ∧
    (AuthService.authenticate_user (fun p h => p == h)
        [⟨"u2", "bob", "bob@example.com", "pw", "", "", true, false, []⟩]
        { attempts := fun _ => [] } 0 "bob" "pw" none).1 ≠
      .error (.authentication "Account is deactivated") :=
  ⟨deactivated_branch_unreachable.2 (fun p h => p == h)
      [⟨"u2", "bob", "bob@example.com", "pw", "", "", true, false, []⟩]
      { attempts := fun _ => [] } 0 "bob" "pw" none (by decide) (by decide),
   deactivated_branch_unreachable.1 (fun p h => p == h)
      [⟨"u2", "bob", "bob@example.com", "pw", "", "", true, false, []⟩]
      { attempts := fun _ => [] } 0 "bob" "pw" none⟩

/-- C8: soft delete is idempotent and total — on an existing active user
the first `delete` returns `true`; a second `delete` of the same id is a
no-op returning `false`; and after the delete every lookup that filters
on active status (`get_by_id`, `get_by_username_or_email`, `list_users`)
treats the user as absent. -/
theorem soft_delete_idempotent_and_filters (db : List UserRec) (user_id : String) (u : UserRec)
    (h : UserRepository.get_by_id db user_id = some u) :
    (UserRepository.delete db user_id).1 = true ∧
    UserRepository.delete (UserRepository.delete db user_id).2 user_id =
      (false, (UserRepository.delete db user_id).2) ∧
    UserRepository.get_by_id (UserRepository.delete db user_id).2 user_id = none ∧
    (∀ identifier v,
      UserRepository.get_by_username_or_email (UserRepository.delete db user_id).2 identifier =
        some v → v.id ≠ user_id) ∧
    (∀ skip limit search v,
      v ∈ UserRepository.list_users (UserRepository.delete db user_id).2 skip limit search →
      v.id ≠ user_id) := by
  have hdel : UserRepository.delete db user_id =
      (true, db.map (fun w => if w.id == user_id then { w with is_active := false } else w)) := by
    simp [UserRepository.delete, h]
  have hkey : ∀ v ∈ db.map (fun w => if w.id == user_id then { w with is_active := false } else w),
      v.id = user_id → v.is_active = false := by
    intro v hv hid
    rcases List.mem_map.mp hv with ⟨w, hw, hmap⟩
    by_cases hc : (w.id == user_id) = true
    · have hv2 : v = { w with is_active := false } := by rw [← hmap, if_pos hc]
      rw [hv2]
    · have hv2 : v = w := by rw [← hmap, if_neg hc]
      exfalso
      rw [hv2] at hid
      exact hc (by simpa using hid)
  have hnone : UserRepository.get_by_id
      (db.map (fun w => if w.id == user_id then { w with is_active := false } else w))
      user_id = none := by
    refine List.find?_eq_none.mpr ?_
    intro v hv
    by_cases hid : v.id = user_id
    · simp [hkey v hv hid]
    · simp [hid]
  have hd2 : UserRepository.delete
      (db.map (fun w => if w.id == user_id then { w with is_active := false } else w)) user_id =
      (false, db.map (fun w => if w.id == user_id then { w with is_active := false } else w)) := by
    unfold UserRepository.delete
    rw [hnone]
  refine ⟨by rw [hdel], ?_, ?_, ?_, ?_⟩
  · rw [hdel]
    exact hd2
  · rw [hdel]
    exact hnone
  · intro identifier v hv
    rw [hdel] at hv
    have hfind := (by simpa [UserRepository.get_by_username_or_email] using hv :
      (db.map (fun w => if w.id == user_id then { w with is_active := false } else w)).find?
        (fun w => (w.username == identifier || w.email == identifier) && w.is_active) = some v)
    have hmem := List.mem_of_find?_eq_some hfind
    have hpred := List.find?_some hfind
    simp at hpred
    intro heq
    have hfalse := hkey v hmem heq
    rw [hfalse] at hpred
    simpa using hpred.2
  · intro skip limit search v hv
    rw [hdel] at hv
    simp only [UserRepository.list_users] at hv
    have h1 := List.drop_subset _ _ (List.take_subset _ _ hv)
    have h2 := List.mem_filter.mp h1
    have h3 := List.mem_filter.mp h2.1
    intro heq
    have hfalse := hkey v h3.1 heq
    rw [hfalse] at h3
    simpa using h3.2

/-- Witness for C8 at a concrete one-user table. -/
theorem soft_delete_idempotent_and_filters_witness :
    UserRepository.get_by_id [⟨"u1", "alice", "alice@example.com", "pw", "", "", true, true, []⟩]
      "u1" = some ⟨"u1", "alice", "alice@example.com", "pw", "", "", true, true, []⟩ ∧
    (UserRepository.delete [⟨"u1", "alice", "alice@example.com", "pw", "", "", true, true, []⟩]
      "u1").1 = true ∧
    UserRepository.get_by_id
      (UserRepository.delete [⟨"u1", "alice", "alice@example.com", "pw", "", "", true, true, []⟩]
        "u1").2 "u1" = none ∧
    UserRepository.delete
      (UserRepository.delete [⟨"u1", "alice", "alice@example.com", "pw", "", "", true, true, []⟩]
        "u1").2 "u1" =
      (false,
        (UserRepository.delete
          [⟨"u1", "alice", "alice@example.com", "pw", "", "", true, true, []⟩] "u1").2) :=
  ⟨rfl,
   (soft_delete_idempotent_and_filters
      [⟨"u1", "alice", "alice@example.com", "pw", "", "", true, true, []⟩] "u1"
      ⟨"u1", "alice", "alice@example.com", "pw", "", "", true, true, []⟩ rfl).1,
   (soft_delete_idempotent_and_filters
      [⟨"u1", "alice", "alice@example.com", "pw", "", "", true, true, []⟩] "u1"
      ⟨"u1", "alice", "alice@example.com", "pw", "", "", true, true, []⟩ rfl).2.2.1,
   (soft_delete_idempotent_and_filters
      [⟨"u1", "alice", "alice@example.com", "pw", "", "", true, true, []⟩] "u1"
      ⟨"u1", "alice", "alice@example.com", "pw", "", "", true, true, []⟩ rfl).2.1⟩

/-- Helper: what a successful `EmailVerificationService.verify_token`
implies about the stored entry. -/
theorem EmailVerificationService.verify_token_some (now : Int)
    (m : List (String × VTokenData)) (token : String) (d : VTokenData)
    (h : EmailVerificationService.verify_token now m token = some d) :
    alookup m token = some d ∧ d.used = false ∧ ¬ d.expiry < now := by
  unfold EmailVerificationService.verify_token at h
  cases hl : alookup m token with
  | none => rw [hl] at h; cases h
  | some d0 =>
    rw [hl] at h
    by_cases hu : d0.used = true
    · simp [hu] at h
    · by_cases he : d0.expiry < now
      · simp [hu, he] at h
      · simp [hu, he] at h
        subst h
        exact ⟨rfl, by simpa using hu, he⟩

/-- C10: `verify_email` consumes the token only on the path that flips
`is_verified`; on an already-verified user it succeeds while leaving the
user table and the token store untouched, so the same token verifies
again and succeeds at any later instant not past its expiry. -/
theorem verify_email_already_verified_no_consume (now : Int) (db : List UserRec)
    (m : List (String × VTokenData)) (token : String) (td : VTokenData) (u : UserRec)
    (ht : EmailVerificationService.verify_token now m token = some td)
    (hu : UserRepository.get_by_id db td.user_id = some u)
    (hv : u.is_verified = true) :
    UserService.verify_email now db m token = (.ok u, db, m) ∧
    (∀ now', ¬ td.expiry < now' → (UserService.verify_email now' db m token).1 = .ok u) := by
  have main : ∀ n, EmailVerificationService.verify_token n m token = some td →
      UserService.verify_email n db m token = (.ok u, db, m) := by
    intro n hn
    simp [UserService.verify_email, hn, hu, hv]
  obtain ⟨hl, hus, _⟩ := EmailVerificationService.verify_token_some now m token td ht
  refine ⟨main now ht, ?_⟩
  intro now' hnow
  have ht' : EmailVerificationService.verify_token now' m token = some td := by
    simp [EmailVerificationService.verify_token, hl, hus, hnow]
  rw [main now' ht']

/-- Witness for C10: an unexpired token for an already-verified user
succeeds now and again later, with both stores untouched. -/
theorem verify_email_already_verified_no_consume_witness :
    UserService.verify_email 0
      [⟨"u1", "alice", "alice@example.com", "pw", "", "", true, true, []⟩]
      [("t1", ⟨"u1", "alice@example.com", 100, false⟩)] "t1" =
      (.ok ⟨"u1", "alice", "alice@example.com", "pw", "", "", true, true, []⟩,
       [⟨"u1", "alice", "alice@example.com", "pw", "", "", true, true, []⟩],
       [("t1", ⟨"u1", "alice@example.com", 100, false⟩)]) ∧
    (UserService.verify_email 50
      [⟨"u1", "alice", "alice@example.com", "pw", "", "", true, true, []⟩]
      [("t1", ⟨"u1", "alice@example.com", 100, false⟩)] "t1").1 =
      .ok ⟨"u1", "alice", "alice@example.com", "pw", "", "", true, true, []⟩ :=
  ⟨(verify_email_already_verified_no_consume 0
      [⟨"u1", "alice", "alice@example.com", "pw", "", "", true, true, []⟩]
      [("t1", ⟨"u1", "alice@example.com", 100, false⟩)] "t1"
      ⟨"u1", "alice@example.com", 100, false⟩
      ⟨"u1", "alice", "alice@example.com", "pw", "", "", true, true, []⟩ rfl rfl rfl).1,
   (verify_email_already_verified_no_consume 0
      [⟨"u1", "alice", "alice@example.com", "pw", "", "", true, true, []⟩]
      [("t1", ⟨"u1", "alice@example.com", 100, false⟩)] "t1"
      ⟨"u1", "alice@example.com", 100, false⟩
      ⟨"u1", "alice", "alice@example.com", "pw", "", "", true, true, []⟩ rfl rfl rfl).2 50
      (by decide)⟩

/-- C3 (counterexample): two password-reset requests for the same user
leave two simultaneously live reset tokens — `generate_reset_token`
never marks prior tokens used — so the old token still verifies instead
of failing. -/
theorem reset_token_two_live_counterexample :
    (PasswordResetService.verify_reset_token 0
      (PasswordResetService.generate_reset_token 0
        (PasswordResetService.generate_reset_token 0 [] "t1" "u1" "a@example.com")
        "t2" "u1" "a@example.com") "t1").isSome = true ∧
    (PasswordResetService.verify_reset_token 0
      (PasswordResetService.generate_reset_token 0
        (PasswordResetService.generate_reset_token 0 [] "t1" "u1" "a@example.com")
        "t2" "u1" "a@example.com") "t2").isSome = true :=
  ⟨rfl, rfl⟩

/-- C3 (amended): only `resend_verification_email` supersedes — it marks
used every prior non-used verification token of the user before issuing,
so after a resend any previously live token of that user fails
verification while the newly issued one succeeds until its expiry;
plain issuance (`generate_verification_token`, `generate_reset_token`)
performs no such invalidation. -/
theorem resend_verification_supersedes (now now' : Int) (m : List (String × VTokenData))
    (user_id email newToken oldToken : String) (d : VTokenData)
    (hold : alookup m oldToken = some d) (huser : d.user_id = user_id)
    (hunused : d.used = false) (hne : oldToken ≠ newToken) :
    EmailVerificationService.verify_token now'
      (EmailVerificationService.resend_verification_email now m newToken user_id email)
      oldToken = none ∧
    (¬ now + EmailVerificationService.verificationTokenTTL < now' →
      EmailVerificationService.verify_token now'
        (EmailVerificationService.resend_verification_email now m newToken user_id email)
        newToken =
        some ⟨user_id, email, now + EmailVerificationService.verificationTokenTTL, false⟩) := by
  have hbne : (newToken == oldToken) = false := by
    simp only [beq_eq_false_iff_ne, ne_eq]
    exact fun hc => hne hc.symm
  constructor
  · have hmap : alookup (m.map (fun p =>
        (p.1, if p.2.user_id == user_id && !p.2.used then { p.2 with used := true } else p.2)))
        oldToken = some { d with used := true } := by
      have h0 := alookup_mapVal
        (fun _ v => if v.user_id == user_id && !v.used then { v with used := true } else v)
        m oldToken
      rw [hold] at h0
      simpa [huser, hunused] using h0
    simp only [EmailVerificationService.resend_verification_email,
      EmailVerificationService.generate_verification_token]
    rw [EmailVerificationService.verify_token, alookup_cons]
    rw [if_neg (by simp [hbne]), alookup_filter_ne _ _ _ hne, hmap]
    simp
  · intro hnow
    simp only [EmailVerificationService.resend_verification_email,
      EmailVerificationService.generate_verification_token]
    rw [EmailVerificationService.verify_token, alookup_cons]
    simp [hnow]

/-- Witness for C3's amended theorem: after a resend, the user's old
live token fails verification and the new token succeeds. -/
theorem resend_verification_supersedes_witness :
    EmailVerificationService.verify_token 0
      (EmailVerificationService.resend_verification_email 0
        [("t1", ⟨"u1", "a@example.com", 100, false⟩)] "t2" "u1" "a@example.com") "t1" = none ∧
    EmailVerificationService.verify_token 0
      (EmailVerificationService.resend_verification_email 0
        [("t1", ⟨"u1", "a@example.com", 100, false⟩)] "t2" "u1" "a@example.com") "t2" =
      some ⟨"u1", "a@example.com", 0 + EmailVerificationService.verificationTokenTTL, false⟩ :=
  ⟨(resend_verification_supersedes 0 0 [("t1", ⟨"u1", "a@example.com", 100, false⟩)]
      "u1" "a@example.com" "t2" "t1" ⟨"u1", "a@example.com", 100, false⟩
      rfl rfl rfl (by decide)).1,
   (resend_verification_supersedes 0 0 [("t1", ⟨"u1", "a@example.com", 100, false⟩)]
      "u1" "a@example.com" "t2" "t1" ⟨"u1", "a@example.com", 100, false⟩
      rfl rfl rfl (by decide)).2 (by decide)⟩

/-- C7 (counterexample): one minute past the refresh-token TTL, the
in-process fallback `get_session` still returns the session (with a
refreshed `last_accessed`), while the primary tier's expiring-store
contract returns nothing — the two tiers do not present the same
observable contract. -/
theorem fallback_get_returns_expired_counterexample :
    (SessionManager.get_session 10081 [("s1", ⟨"u1", 0, 0⟩)] "s1").1 =
      some ⟨"u1", 0, 10081⟩ ∧
    (SessionManager.spec_sliding_get 10081 JWTManager.refreshTokenExpireMinutes
      [("s1", ⟨"u1", 0, 0⟩)] "s1").1 = none :=
  ⟨rfl, rfl⟩

/-- C7 (amended): the fallback tier's `get_session` refreshes
`last_accessed` on a hit but performs no expiry check at all — it
returns the stored session however old it is — whereas the spec's
primary-tier contract returns `none` once the TTL since last access has
elapsed; expiry in the fallback happens only in
`cleanup_expired_sessions`, which drops sessions by age since
`created_at` (absolute, not sliding). -/
theorem fallback_vs_primary_get_contract (now : Int) (st : List (String × SessionData))
    (session_id : String) (d : SessionData) :
    (alookup st session_id = some d →
      (SessionManager.get_session now st session_id).1 =
        some { d with last_accessed := now }) ∧
    (alookup st session_id = some d →
      JWTManager.refreshTokenExpireMinutes < now - d.last_accessed →
      (SessionManager.spec_sliding_get now JWTManager.refreshTokenExpireMinutes st
        session_id).1 = none) ∧
    (∀ p, p ∈ SessionManager.cleanup_expired_sessions now st ↔
      p ∈ st ∧ ¬ JWTManager.refreshTokenExpireMinutes < now - p.2.created_at) := by
  refine ⟨?_, ?_, ?_⟩
  · intro h
    simp [SessionManager.get_session, h]
  · intro h hx
    simp [SessionManager.spec_sliding_get, h, hx]
  · intro p
    simp [SessionManager.cleanup_expired_sessions, List.mem_filter]

/-- Witness for C7's amended theorem: a session last accessed at time 0
is still returned by the fallback at time 10081 — far past the TTL. -/
theorem fallback_vs_primary_get_contract_witness :
    (SessionManager.get_session 10081 [("s1", ⟨"u1", 0, 0⟩)] "s1").1 =
      some { user_id := "u1", created_at := 0, last_accessed := 10081 } ∧
    (SessionManager.spec_sliding_get 10081 JWTManager.refreshTokenExpireMinutes
      [("s1", ⟨"u1", 0, 0⟩)] "s1").1 = none :=
  ⟨(fallback_vs_primary_get_contract 10081 [("s1", ⟨"u1", 0, 0⟩)] "s1" ⟨"u1", 0, 0⟩).1 rfl,
   (fallback_vs_primary_get_contract 10081 [("s1", ⟨"u1", 0, 0⟩)] "s1" ⟨"u1", 0, 0⟩).2.1 rfl
     (by decide)⟩

/-- C2 (counterexample): a refresh token accepted as the refresh kind
whose claims carry an unresolvable `session_id` but no `sub` fails with
"Invalid token payload", not with "Session expired" — the `sub` check
comes first. -/
theorem refresh_missing_sub_counterexample :
    (AuthService.refresh_token 0 [] []
      ⟨true, { session_id := some "s1", exp := some 100, type_ := some "refresh" }⟩).1 =
      .error (.authentication "Invalid token payload") ∧
    (AppErr.authentication "Invalid token payload" ≠ AppErr.authentication "Session expired") :=
  ⟨rfl, by decide⟩

/-- C2 (amended): for every refresh token accepted as the refresh kind
whose claims carry a `sub` (a sub-less token fails earlier with "Invalid
token payload") and a `session_id`: an unresolvable `session_id` fails
with AuthenticationError "Session expired"; a resolvable session whose
user no longer exists (the active-filtered lookup also hides inactive
users) fails with AuthenticationError and deletes the session; otherwise
a fresh access+refresh pair is returned whose claims carry the same
`session_id` as the input token. -/
theorem refresh_token_session_and_user_checks (now : Int) (db : List UserRec)
    (st : List (String × SessionData)) (t : Token) (payload : Claims)
    (user_id session_id : String)
    (hv : JWTManager.verify_token now t "refresh" = .ok payload)
    (hsub : payload.sub = some user_id)
    (hsid : payload.session_id = some session_id) :
    (alookup st session_id = none →
      AuthService.refresh_token now db st t =
        (.error (.authentication "Session expired"), st)) ∧
    (∀ d, alookup st session_id = some d →
      UserRepository.get_by_id db user_id = none →
      (AuthService.refresh_token now db st t).1 =
        .error (.authentication "User not found or inactive") ∧
      alookup (AuthService.refresh_token now db st t).2 session_id = none) ∧
    (∀ d u, alookup st session_id = some d →
      UserRepository.get_by_id db user_id = some u →
      (AuthService.refresh_token now db st t).1 =
        .ok (JWTManager.create_access_token now
              { sub := u.id, username := u.username, email := u.email,
                roles := u.roles, session_id := some session_id },
             JWTManager.create_refresh_token now
              { sub := u.id, username := u.username, email := u.email,
                roles := u.roles, session_id := some session_id })) ∧
    (∀ a r, (AuthService.refresh_token now db st t).1 = .ok (a, r) →
      a.session_id = some session_id ∧ r.session_id = some session_id) := by
  have hc1 : alookup st session_id = none →
      AuthService.refresh_token now db st t =
        (.error (.authentication "Session expired"), st) := by
    intro h
    simp [AuthService.refresh_token, hv, hsub, hsid, SessionManager.get_session, h]
  have hc2 : ∀ d, alookup st session_id = some d →
      UserRepository.get_by_id db user_id = none →
      (AuthService.refresh_token now db st t).1 =
        .error (.authentication "User not found or inactive") ∧
      alookup (AuthService.refresh_token now db st t).2 session_id = none := by
    intro d hd hu
    have hget : SessionManager.get_session now st session_id =
        (some { d with last_accessed := now },
         st.map (fun p =>
           (p.1, if p.1 == session_id then { d with last_accessed := now } else p.2))) := by
      simp [SessionManager.get_session, hd]
    have hlook1 : alookup (st.map (fun p =>
        (p.1, if p.1 == session_id then { d with last_accessed := now } else p.2)))
        session_id = some { d with last_accessed := now } := by
      have h0 := alookup_mapVal
        (fun k v => if k == session_id then { d with last_accessed := now } else v)
        st session_id
      rw [hd] at h0
      simpa using h0
    have hrt : AuthService.refresh_token now db st t =
        (.error (.authentication "User not found or inactive"),
         (SessionManager.delete_session
           (st.map (fun p =>
             (p.1, if p.1 == session_id then { d with last_accessed := now } else p.2)))
           session_id).2) := by
      simp [AuthService.refresh_token, hv, hsub, hsid, hget, hu]
    constructor
    · rw [hrt]
    · rw [hrt, SessionManager.delete_session, if_pos (by rw [hlook1]; rfl)]
      exact alookup_filter_self _ _
  have hc3 : ∀ d u, alookup st session_id = some d →
      UserRepository.get_by_id db user_id = some u →
      (AuthService.refresh_token now db st t).1 =
        .ok (JWTManager.create_access_token now
              { sub := u.id, username := u.username, email := u.email,
                roles := u.roles, session_id := some session_id },
             JWTManager.create_refresh_token now
              { sub := u.id, username := u.username, email := u.email,
                roles := u.roles, session_id := some session_id }) := by
    intro d u hd hu
    have hact : u.is_active = true := by
      have hp := List.find?_some (by simpa [UserRepository.get_by_id] using hu)
      simp at hp
      exact hp.2
    simp [AuthService.refresh_token, hv, hsub, hsid, SessionManager.get_session, hd, hu, hact]
  refine ⟨hc1, hc2, hc3, ?_⟩
  intro a r h
  cases hd : alookup st session_id with
  | none =>
    rw [hc1 hd] at h
    simp at h
  | some d =>
    cases hu : UserRepository.get_by_id db user_id with
    | none =>
      rw [(hc2 d hd hu).1] at h
      simp at h
    | some u =>
      rw [hc3 d u hd hu] at h
      simp at h
      obtain ⟨ha, hr⟩ := h
      exact ⟨by rw [← ha]; rfl, by rw [← hr]; rfl⟩

/-- Witness for C2's amended theorem: a sub-bearing refresh token with a
dangling session fails "Session expired" on an empty store, and with a
live session and active user the refreshed pair carries `session_id`
"s1". -/
theorem refresh_token_session_and_user_checks_witness :
    AuthService.refresh_token 0 [] []
      ⟨true, { sub := some "u1", session_id := some "s1", exp := some 20000,
               type_ := some "refresh" }⟩ =
      (.error (.authentication "Session expired"), []) ∧
    (AuthService.refresh_token 0
      [⟨"u1", "alice", "alice@example.com", "pw", "", "", true, true, []⟩]
      [("s1", ⟨"u1", 0, 0⟩)]
      ⟨true, { sub := some "u1", session_id := some "s1", exp := some 20000,
               type_ := some "refresh" }⟩).1 =
      .ok (JWTManager.create_access_token 0
            { sub := "u1", username := "alice", email := "alice@example.com",
              roles := [], session_id := some "s1" },
           JWTManager.create_refresh_token 0
            { sub := "u1", username := "alice", email := "alice@example.com",
              roles := [], session_id := some "s1" }) :=
  ⟨(refresh_token_session_and_user_checks 0 [] []
      ⟨true, { sub := some "u1", session_id := some "s1", exp := some 20000,
               type_ := some "refresh" }⟩
      { sub := some "u1", session_id := some "s1", exp := some 20000,
        type_ := some "refresh" } "u1" "s1" rfl rfl rfl).1 rfl,
   (refresh_token_session_and_user_checks 0
      [⟨"u1", "alice", "alice@example.com", "pw", "", "", true, true, []⟩]
      [("s1", ⟨"u1", 0, 0⟩)]
      ⟨true, { sub := some "u1", session_id := some "s1", exp := some 20000,
               type_ := some "refresh" }⟩
      { sub := some "u1", session_id := some "s1", exp := some 20000,
        type_ := some "refresh" } "u1" "s1" rfl rfl rfl).2.2.1 ⟨"u1", 0, 0⟩
      ⟨"u1", "alice", "alice@example.com", "pw", "", "", true, true, []⟩ rfl rfl⟩
